import Mathlib

/-!
Verification of the data-export layer in `src/exec/NeighborList/FieldIO.cpp`
(`WritePlotFile` and `WriteParticlesVTK`), shallow-embedded in Lean.

Machine reals (`amrex::Real`, C++ `double`) are embedded as `ℚ`: the export
code only copies particle values into buffers and files, it never computes
with them, so the carrier type is irrelevant to every property below.
File output is modelled as a list of structured lines (`VTKLine`); the
decimal rendering of a real value by the C++ stream is abstracted by the
`VTKLine.render` function.
-/

/-- Modelled from the spec: the particle record of the external particle
container (declared in `MDParticleContainer.H`, which is not under `src/`).
Per section 3 of the spec a particle has a 3-component real-valued position
and a fixed-size ordered set of real-valued attributes, the six consumed
here being velocity (x,y,z) and acceleration (x,y,z), addressed by a fixed
symbolic index. -/
structure ParticleType where
  pos : Fin 3 → ℚ
  rdata : Fin 6 → ℚ

/-- Modelled from the spec: the fixed symbolic attribute indices (`PIdx`
from `MDParticleContainer.H`, not under `src/`): velocity x/y/z then
acceleration x/y/z, six components in total. -/
def PIdx.vx : Fin 6 := 0

/-- Symbolic index of the velocity y attribute. -/
def PIdx.vy : Fin 6 := 1

/-- Symbolic index of the velocity z attribute. -/
def PIdx.vz : Fin 6 := 2

/-- Symbolic index of the acceleration x attribute. -/
def PIdx.ax : Fin 6 := 3

/-- Symbolic index of the acceleration y attribute. -/
def PIdx.ay : Fin 6 := 4

/-- Symbolic index of the acceleration z attribute. -/
def PIdx.az : Fin 6 := 5

/-- Number of real attribute components per particle. -/
def PIdx.ncomps : ℕ := 6

/-- Modelled from the spec: the read-only view of the external particle
container used by `FieldIO.cpp`. `finestLevel` is the index of the finest
populated level; `GetParticles lev` is the level's tile map, embedded as the
list of tiles in the map's iteration order, each tile being its
array-of-structs particle list (`GetArrayOfStructs`, index access `p[i]`).
Only this view is read by the export code. -/
structure MDParticleContainer where
  finestLevel : ℕ
  GetParticles : ℕ → List (List ParticleType)

/-- First pass of `WriteParticlesVTK` (FieldIO.cpp lines 95-104): the total
particle count, accumulated over levels `0..finestLevel` and over every tile
of each level. -/
def countParticles (pc : MDParticleContainer) : ℕ :=
  ((List.range (pc.finestLevel + 1)).map (fun lev =>
    ((pc.GetParticles lev).map (fun ptile => ptile.length)).sum)).sum

/-- The particles visited by the collection pass of `WriteParticlesVTK`
(FieldIO.cpp lines 122-147), in visit order: level ascending, tile iteration
order within a level, storage order within a tile. -/
def allParticles (pc : MDParticleContainer) : List ParticleType :=
  (List.range (pc.finestLevel + 1)).flatMap (fun lev =>
    (pc.GetParticles lev).flatMap (fun ptile => ptile))

/-- One host-side vector produced by the collection pass of
`WriteParticlesVTK` (FieldIO.cpp lines 122-147): the loop pushes `f part`
for every particle, in the same nested level/tile/in-tile order for each of
the nine vectors. -/
def collectReal (pc : MDParticleContainer) (f : ParticleType → ℚ) : List ℚ :=
  (List.range (pc.finestLevel + 1)).flatMap (fun lev =>
    (pc.GetParticles lev).flatMap (fun ptile => ptile.map f))

/-- Host vector `xs` (positions, component 0). -/
def xs (pc : MDParticleContainer) : List ℚ := collectReal pc (fun part => part.pos 0)

/-- Host vector `ys` (positions, component 1). -/
def ys (pc : MDParticleContainer) : List ℚ := collectReal pc (fun part => part.pos 1)

/-- Host vector `zs` (positions, component 2). -/
def zs (pc : MDParticleContainer) : List ℚ := collectReal pc (fun part => part.pos 2)

/-- Host vector `vxs` (attribute `PIdx.vx`). -/
def vxs (pc : MDParticleContainer) : List ℚ := collectReal pc (fun part => part.rdata PIdx.vx)

/-- Host vector `vys` (attribute `PIdx.vy`). -/
def vys (pc : MDParticleContainer) : List ℚ := collectReal pc (fun part => part.rdata PIdx.vy)

/-- Host vector `vzs` (attribute `PIdx.vz`). -/
def vzs (pc : MDParticleContainer) : List ℚ := collectReal pc (fun part => part.rdata PIdx.vz)

/-- Host vector `axs` (attribute `PIdx.ax`). -/
def axs (pc : MDParticleContainer) : List ℚ := collectReal pc (fun part => part.rdata PIdx.ax)

/-- Host vector `ays` (attribute `PIdx.ay`). -/
def ays (pc : MDParticleContainer) : List ℚ := collectReal pc (fun part => part.rdata PIdx.ay)

/-- Host vector `azs` (attribute `PIdx.az`). -/
def azs (pc : MDParticleContainer) : List ℚ := collectReal pc (fun part => part.rdata PIdx.az)

/-- One line of the VTK output file, structured. `text` lines are written
verbatim by the code; the other constructors carry the data the code
interpolates into the line. -/
inductive VTKLine where
  | text (s : String)
  | pointsHdr (n : ℕ)
  | point (x y z : ℚ)
  | verticesHdr (cells listSize : ℕ)
  | vertex (npts idx : ℕ)
  | pointDataHdr (n : ℕ)
  | scalarsHdr (sname styp : String) (nc : ℕ)
  | value (v : ℚ)
  | blank
deriving DecidableEq

/-- Rendering of a structured line as the text `WriteParticlesVTK` streams
out (the C++ decimal formatting of a `double` is abstracted by `toString`). -/
def VTKLine.render : VTKLine → String
  | VTKLine.text s => s
  | VTKLine.pointsHdr n => "POINTS " ++ toString n ++ " double"
  | VTKLine.point x y z => toString x ++ " " ++ toString y ++ " " ++ toString z
  | VTKLine.verticesHdr c m => "VERTICES " ++ toString c ++ " " ++ toString m
  | VTKLine.vertex k i => toString k ++ " " ++ toString i
  | VTKLine.pointDataHdr n => "POINT_DATA " ++ toString n
  | VTKLine.scalarsHdr sname styp nc => "SCALARS " ++ sname ++ " " ++ styp ++ " " ++ toString nc
  | VTKLine.value v => toString v
  | VTKLine.blank => ""

/-- The `write_scalar` lambda of `WriteParticlesVTK` (FieldIO.cpp lines
189-198): a SCALARS header, the LOOKUP_TABLE line, then `data[i]` for
`i = 0 .. np_total-1`, then a blank line. The C++ `data[i]` access is
embedded as `getD` with an arbitrary default; the collection-length theorem
shows the default is never taken. -/
def write_scalar (np_total : ℕ) (sname : String) (data : List ℚ) : List VTKLine :=
  [VTKLine.scalarsHdr sname "double" 1, VTKLine.text "LOOKUP_TABLE default"]
    ++ (List.range np_total).map (fun i => VTKLine.value (data.getD i 0))
    ++ [VTKLine.blank]

/-- The full line sequence streamed by `WriteParticlesVTK` after the file is
open (FieldIO.cpp lines 165-205): four header lines, the POINTS block, the
VERTICES block, and the POINT_DATA section with six SCALARS blocks. -/
def vtkFileLines (np_total : ℕ)
    (xs ys zs vxs vys vzs axs ays azs : List ℚ) : List VTKLine :=
  [VTKLine.text "# vtk DataFile Version 3.0",
   VTKLine.text "MD particles",
   VTKLine.text "ASCII",
   VTKLine.text "DATASET POLYDATA",
   VTKLine.pointsHdr np_total]
    ++ (List.range np_total).map (fun i =>
        VTKLine.point (xs.getD i 0) (ys.getD i 0) (zs.getD i 0))
    ++ [VTKLine.blank,
        VTKLine.verticesHdr np_total (2 * np_total)]
    ++ (List.range np_total).map (fun i => VTKLine.vertex 1 i)
    ++ [VTKLine.blank,
        VTKLine.pointDataHdr np_total]
    ++ write_scalar np_total "vx" vxs
    ++ write_scalar np_total "vy" vys
    ++ write_scalar np_total "vz" vzs
    ++ write_scalar np_total "ax" axs
    ++ write_scalar np_total "ay" ays
    ++ write_scalar np_total "az" azs

/-- Modelled from the spec: `amrex::Concatenate`, the external AMReX naming
primitive used for both output names. Per the spec it appends the decimal
step index, zero-padded on the left to a minimum number of digits, to a
literal root. -/
def Concatenate (root : String) (num : ℕ) (mindigits : ℕ) : String :=
  root ++ String.mk (List.replicate (mindigits - (toString num).length) '0') ++ toString num

/-- Observable outcome of one `WriteParticlesVTK` call: the diagnostic
notices printed, and the written file (name and content) when one is
produced. -/
structure VTKResult where
  log : List String
  file : Option (String × List VTKLine)

/-- Shallow embedding of `WriteParticlesVTK` (FieldIO.cpp lines 87-211).
`openOk` models whether the `std::ofstream` constructor leaves the stream
good; it is the only environment interaction. The function counts, collects
the nine host vectors, then either short-circuits (zero particles, or open
failure) or emits the VTK line sequence. -/
def WriteParticlesVTK (pc : MDParticleContainer) (nstep : ℕ) (openOk : Bool) : VTKResult :=
  let np_total := countParticles pc
  if np_total = 0 then
    { log := ["WriteParticlesVTK: no particles to write.\n"], file := none }
  else
    let vtkfile := Concatenate "particles_" nstep 5 ++ ".vtk"
    if openOk = false then
      { log := ["WriteParticlesVTK: could not open file " ++ vtkfile ++ "\n"], file := none }
    else
      { log := ["WriteParticlesVTK: wrote " ++ toString np_total
                  ++ " particles to " ++ vtkfile ++ "\n"],
        file := some (vtkfile,
          vtkFileLines np_total (xs pc) (ys pc) (zs pc)
            (vxs pc) (vys pc) (vzs pc) (axs pc) (ays pc) (azs pc)) }

/-- An AMReX `IntVect`: one integer per spatial axis. -/
abbrev IntVect := ℤ × ℤ × ℤ

/-- An AMReX `Box`: an index-space region given by its low and high corners. -/
structure Box where
  smallEnd : IntVect
  bigEnd : IntVect
deriving DecidableEq

/-- The slice of AMReX `Geometry` read by `WritePlotFile`: the index-space
domain box of the level. -/
structure Geometry where
  Domain : Box
deriving DecidableEq

/-- The per-level `MultiFab` built by `WritePlotFile`, recorded by its
construction arguments (FieldIO.cpp lines 40-49): the box array it is laid
out on, the box array its `DistributionMapping` was computed from, the
component count, the ghost-cell count, and the value `setVal` filled in. -/
structure LevelData where
  boxArray : List Box
  dmSource : List Box
  ncomp : ℕ
  ngrow : ℕ
  fillValue : ℚ
deriving DecidableEq

/-- The argument tuple `WritePlotFile` hands to the external
`WriteMultiLevelPlotfile` (FieldIO.cpp lines 63-70). -/
structure PlotArgs where
  pltfile : String
  num_levels : ℕ
  output_cc : List LevelData
  varnames : List String
  geoms : List Geometry
  time : ℚ
  level_steps : List ℕ
  refRatio : List IntVect
deriving DecidableEq

/-- The argument tuple `WritePlotFile` hands to `pc.Checkpoint`
(FieldIO.cpp line 84). -/
structure CheckpointArgs where
  dir : String
  subdir : String
  writeHeader : Bool
  particle_varnames : List String
deriving DecidableEq

/-- Shallow embedding of `WritePlotFile` (FieldIO.cpp lines 17-85): with an
empty geometry sequence it returns immediately having produced nothing;
otherwise it returns the arguments delivered to the structured-grid writer
and to the particle checkpoint writer. `geom.size()` is never negative, so
the C++ guard `num_levels <= 0` is `num_levels = 0`. -/
def WritePlotFile (pc : MDParticleContainer) (geom : List Geometry) (nstep : ℕ) :
    Option (PlotArgs × CheckpointArgs) :=
  let num_levels := geom.length
  if num_levels = 0 then
    none
  else
    let varnames : List String := ["dummy"]
    let level_steps : List ℕ := List.replicate num_levels nstep
    let output_cc : List LevelData := geom.map (fun g =>
      { boxArray := [g.Domain], dmSource := [g.Domain],
        ncomp := varnames.length, ngrow := 0, fillValue := 0 })
    let refRatio : List IntVect := List.replicate (num_levels - 1) (2, 2, 2)
    let pltfile := Concatenate "plt" nstep 5
    some ({ pltfile := pltfile, num_levels := num_levels, output_cc := output_cc,
            varnames := varnames, geoms := geom, time := 0,
            level_steps := level_steps, refRatio := refRatio },
          { dir := pltfile, subdir := "particle0", writeHeader := true,
            particle_varnames := ["vx", "vy", "vz", "ax", "ay", "az"] })

/-- Extractor for POINTS header lines. -/
def pointsHdrOf : VTKLine → Option ℕ
  | VTKLine.pointsHdr n => some n
  | _ => none

/-- Extractor for position lines of the POINTS block. -/
def pointOf : VTKLine → Option (ℚ × ℚ × ℚ)
  | VTKLine.point x y z => some (x, y, z)
  | _ => none

/-- Extractor for the VERTICES header line. -/
def verticesHdrOf : VTKLine → Option (ℕ × ℕ)
  | VTKLine.verticesHdr c m => some (c, m)
  | _ => none

/-- Extractor for the topology lines of the VERTICES block. -/
def vertexOf : VTKLine → Option (ℕ × ℕ)
  | VTKLine.vertex k i => some (k, i)
  | _ => none

/-- All POINTS header counts appearing in a file. -/
def pointsHdrs (lines : List VTKLine) : List ℕ := lines.filterMap pointsHdrOf

/-- All position rows appearing in a file, in file order. -/
def pointRows (lines : List VTKLine) : List (ℚ × ℚ × ℚ) := lines.filterMap pointOf

/-- All VERTICES header count pairs appearing in a file. -/
def verticesHdrs (lines : List VTKLine) : List (ℕ × ℕ) := lines.filterMap verticesHdrOf

/-- All topology rows appearing in a file, in file order. -/
def vertexRows (lines : List VTKLine) : List (ℕ × ℕ) := lines.filterMap vertexOf

/-- Whether a line is a SCALARS attribute value line. -/
def isValueLine : VTKLine → Bool
  | VTKLine.value _ => true
  | _ => false

/-- Whether a line is a SCALARS sub-block header. -/
def isScalarsHdr : VTKLine → Bool
  | VTKLine.scalarsHdr _ _ _ => true
  | _ => false

/-- The maximal run of value lines at the head of a line list. -/
def takeValues : List VTKLine → List ℚ
  | VTKLine.value v :: rest => v :: takeValues rest
  | _ => []

/-- The SCALARS sub-blocks of a file: for each SCALARS header, its attribute
name paired with the run of value lines that follows it. -/
def scalarBlocks : List VTKLine → List (String × List ℚ)
  | [] => []
  | VTKLine.scalarsHdr sname _ _ :: rest =>
      (sname, takeValues (rest.dropWhile (fun l => !(isValueLine l)))) :: scalarBlocks rest
  | _ :: rest => scalarBlocks rest

/-- Zero padding as the spec words it: the decimal digits of the step index,
left-padded with zeros to five digits. Stated separately from `Concatenate`
so the naming theorem compares the code's name against the spec's wording. -/
def zeroPad5 (n : ℕ) : String :=
  String.mk (List.replicate (5 - (toString n).length) '0') ++ toString n

/-- Example particle: every position component 1, attribute slot j holding j. -/
def pOne : ParticleType :=
  { pos := fun _ => 1, rdata := fun j => ((j : ℕ) : ℚ) }

/-- Example container: a single level with one tile holding one particle. -/
def pcOne : MDParticleContainer :=
  { finestLevel := 0, GetParticles := fun lev => if lev = 0 then [[pOne]] else [] }

/-- Example container: one level whose single tile holds no particles. -/
def pcEmpty : MDParticleContainer :=
  { finestLevel := 0, GetParticles := fun _ => [[]] }

/-- Example particle for the two-level scenario of the spec. -/
def pA : ParticleType := { pos := fun _ => 0, rdata := fun _ => 10 }

/-- Second example particle. -/
def pB : ParticleType := { pos := fun _ => 1, rdata := fun _ => 20 }

/-- Third example particle. -/
def pC : ParticleType := { pos := fun _ => 2, rdata := fun _ => 30 }

/-- Example container matching the spec scenario: two levels, three particles
in total, two on level 0 (in two tiles) and one on level 1. -/
def pcThree : MDParticleContainer :=
  { finestLevel := 1,
    GetParticles := fun lev =>
      if lev = 0 then [[pA], [pB]] else if lev = 1 then [[pC]] else [] }

/-- Example domain box. -/
def boxEx : Box := { smallEnd := (0, 0, 0), bigEnd := (3, 3, 3) }

/-- Example level geometry. -/
def geomEx : Geometry := { Domain := boxEx }

/-- Second example level geometry, with a refined domain. -/
def geomEx2 : Geometry := { Domain := { smallEnd := (0, 0, 0), bigEnd := (7, 7, 7) } }

lemma filterMap_const_none {α β : Type} (l : List α) :
    l.filterMap (fun _ => (none : Option β)) = [] := by
  induction l with
  | nil => rfl
  | cons a t ih => simp [List.filterMap_cons, ih]

lemma filterMap_const_some {α β : Type} (l : List α) (k : α → β) :
    l.filterMap (fun x => some (k x)) = l.map k :=
  List.filterMap_eq_map_iff_forall_eq_some.mpr (fun _ _ => rfl)

lemma collectReal_eq_map (pc : MDParticleContainer) (f : ParticleType → ℚ) :
    collectReal pc f = (allParticles pc).map f := by
  simp [collectReal, allParticles, List.map_flatMap]

lemma length_collectReal (pc : MDParticleContainer) (f : ParticleType → ℚ) :
    (collectReal pc f).length = countParticles pc := by
  simp [collectReal, countParticles, List.length_flatMap, List.map_map, Function.comp_def,
    List.length_map]

lemma length_allParticles (pc : MDParticleContainer) :
    (allParticles pc).length = countParticles pc := by
  simp [allParticles, countParticles, List.length_flatMap, List.map_map, Function.comp_def,
    List.length_map]

lemma range_map_getD {α : Type} (l : List α) (d : α) :
    (List.range l.length).map (fun i => l.getD i d) = l := by
  induction l with
  | nil => rfl
  | cons a t ih =>
      rw [List.length_cons, List.range_succ_eq_map, List.map_cons, List.map_map]
      have hfun : ((fun i => (a :: t).getD i d) ∘ Nat.succ) = fun i => t.getD i d := by
        funext i
        rfl
      rw [hfun, ih]
      rfl

lemma collect_range_getD (pc : MDParticleContainer) (f : ParticleType → ℚ) :
    (List.range (countParticles pc)).map (fun i => (collectReal pc f).getD i 0)
      = (allParticles pc).map f := by
  rw [← length_collectReal pc f, range_map_getD, collectReal_eq_map]

lemma collect_getD (pc : MDParticleContainer) (f : ParticleType → ℚ) (i : ℕ)
    (hi : i < (allParticles pc).length) :
    (collectReal pc f).getD i 0 = f ((allParticles pc)[i]) := by
  have hlen : i < ((allParticles pc).map f).length := by simpa using hi
  rw [collectReal_eq_map, List.getD_eq_getElem _ _ hlen, List.getElem_map]

lemma pointsHdrs_vtkFileLines (np : ℕ) (xs ys zs vxs vys vzs axs ays azs : List ℚ) :
    pointsHdrs (vtkFileLines np xs ys zs vxs vys vzs axs ays azs) = [np] := by
  simp [pointsHdrs, vtkFileLines, write_scalar, List.filterMap_append, List.filterMap_cons,
    pointsHdrOf, List.filterMap_map, Function.comp_def, filterMap_const_none]

lemma pointRows_vtkFileLines (np : ℕ) (xs ys zs vxs vys vzs axs ays azs : List ℚ) :
    pointRows (vtkFileLines np xs ys zs vxs vys vzs axs ays azs)
      = (List.range np).map (fun i => (xs.getD i 0, ys.getD i 0, zs.getD i 0)) := by
  simp [pointRows, vtkFileLines, write_scalar, List.filterMap_append, List.filterMap_cons,
    pointOf, List.filterMap_map, Function.comp_def, filterMap_const_none, filterMap_const_some]

lemma verticesHdrs_vtkFileLines (np : ℕ) (xs ys zs vxs vys vzs axs ays azs : List ℚ) :
    verticesHdrs (vtkFileLines np xs ys zs vxs vys vzs axs ays azs) = [(np, 2 * np)] := by
  simp [verticesHdrs, vtkFileLines, write_scalar, List.filterMap_append, List.filterMap_cons,
    verticesHdrOf, List.filterMap_map, Function.comp_def, filterMap_const_none]

lemma vertexRows_vtkFileLines (np : ℕ) (xs ys zs vxs vys vzs axs ays azs : List ℚ) :
    vertexRows (vtkFileLines np xs ys zs vxs vys vzs axs ays azs)
      = (List.range np).map (fun i => (1, i)) := by
  simp [vertexRows, vtkFileLines, write_scalar, List.filterMap_append, List.filterMap_cons,
    vertexOf, List.filterMap_map, Function.comp_def, filterMap_const_none, filterMap_const_some]

lemma takeValues_map_value (l : List ℚ) (r : List VTKLine) :
    takeValues (l.map VTKLine.value ++ VTKLine.blank :: r) = l := by
  induction l with
  | nil => rfl
  | cons a t ih => simp [takeValues, ih]

lemma scalarBlocks_map_value (l : List ℚ) (r : List VTKLine) :
    scalarBlocks (l.map VTKLine.value ++ r) = scalarBlocks r := by
  induction l with
  | nil => rfl
  | cons a t ih => simp [scalarBlocks, ih]

lemma scalarBlocks_append_no_hdr (l r : List VTKLine)
    (h : ∀ x ∈ l, isScalarsHdr x = false) :
    scalarBlocks (l ++ r) = scalarBlocks r := by
  induction l with
  | nil => rfl
  | cons a t ih =>
      have ha : isScalarsHdr a = false := h a (List.mem_cons_self a t)
      have ht : ∀ x ∈ t, isScalarsHdr x = false := fun x hx => h x (List.mem_cons_of_mem a hx)
      rw [List.cons_append]
      cases a <;> simp_all [scalarBlocks, isScalarsHdr]

lemma scalarBlocks_write_scalar (np : ℕ) (h : np ≠ 0) (sname : String) (data : List ℚ)
    (r : List VTKLine) :
    scalarBlocks (write_scalar np sname data ++ r)
      = (sname, (List.range np).map (fun i => data.getD i 0)) :: scalarBlocks r := by
  obtain ⟨m, rfl⟩ : ∃ m, np = m + 1 :=
    ⟨np - 1, (Nat.succ_pred_eq_of_pos (Nat.pos_of_ne_zero h)).symm⟩
  have hvals : (List.range (m + 1)).map (fun i => VTKLine.value (data.getD i 0))
      = ((List.range (m + 1)).map (fun i => data.getD i 0)).map VTKLine.value := by
    rw [List.map_map]
    rfl
  obtain ⟨b, bs, hb⟩ : ∃ b bs, (List.range (m + 1)).map (fun i => data.getD i 0) = b :: bs := by
    cases hx : (List.range (m + 1)).map (fun i => data.getD i 0) with
    | nil =>
        exfalso
        have hlen := congrArg List.length hx
        simp at hlen
    | cons b bs => exact ⟨b, bs, rfl⟩
  unfold write_scalar
  rw [hvals, hb]
  simp only [List.cons_append, List.append_assoc, List.nil_append, List.map_cons,
    List.singleton_append]
  rw [show scalarBlocks (VTKLine.scalarsHdr sname "double" 1 :: VTKLine.text "LOOKUP_TABLE default"
        :: VTKLine.value b :: (bs.map VTKLine.value ++ VTKLine.blank :: r))
      = (sname, takeValues ((VTKLine.text "LOOKUP_TABLE default"
          :: VTKLine.value b :: (bs.map VTKLine.value ++ VTKLine.blank :: r)).dropWhile
            (fun l => !(isValueLine l))))
        :: scalarBlocks (VTKLine.text "LOOKUP_TABLE default"
          :: VTKLine.value b :: (bs.map VTKLine.value ++ VTKLine.blank :: r)) from rfl]
  have hdrop : (VTKLine.text "LOOKUP_TABLE default" :: VTKLine.value b ::
      (bs.map VTKLine.value ++ VTKLine.blank :: r)).dropWhile (fun l => !(isValueLine l))
      = VTKLine.value b :: (bs.map VTKLine.value ++ VTKLine.blank :: r) := by
    simp [List.dropWhile_cons, isValueLine]
  rw [hdrop]
  rw [show scalarBlocks (VTKLine.text "LOOKUP_TABLE default"
        :: VTKLine.value b :: (bs.map VTKLine.value ++ VTKLine.blank :: r))
      = scalarBlocks (VTKLine.value b :: (bs.map VTKLine.value ++ VTKLine.blank :: r)) from rfl]
  rw [show scalarBlocks (VTKLine.value b :: (bs.map VTKLine.value ++ VTKLine.blank :: r))
      = scalarBlocks (bs.map VTKLine.value ++ VTKLine.blank :: r) from rfl]
  rw [scalarBlocks_map_value]
  rw [show scalarBlocks (VTKLine.blank :: r) = scalarBlocks r from rfl]
  rw [show (VTKLine.value b :: (bs.map VTKLine.value ++ VTKLine.blank :: r))
      = ((b :: bs).map VTKLine.value ++ VTKLine.blank :: r) from rfl]
  rw [takeValues_map_value]

lemma scalarBlocks_vtkFileLines (np : ℕ) (h : np ≠ 0)
    (xs ys zs vxs vys vzs axs ays azs : List ℚ) :
    scalarBlocks (vtkFileLines np xs ys zs vxs vys vzs axs ays azs)
      = [("vx", (List.range np).map (fun i => vxs.getD i 0)),
         ("vy", (List.range np).map (fun i => vys.getD i 0)),
         ("vz", (List.range np).map (fun i => vzs.getD i 0)),
         ("ax", (List.range np).map (fun i => axs.getD i 0)),
         ("ay", (List.range np).map (fun i => ays.getD i 0)),
         ("az", (List.range np).map (fun i => azs.getD i 0))] := by
  have hL1 : ∀ x ∈ [VTKLine.text "# vtk DataFile Version 3.0", VTKLine.text "MD particles",
      VTKLine.text "ASCII", VTKLine.text "DATASET POLYDATA", VTKLine.pointsHdr np],
      isScalarsHdr x = false := by
    intro x hx
    simp only [List.mem_cons, List.not_mem_nil, or_false] at hx
    rcases hx with rfl | rfl | rfl | rfl | rfl <;> rfl
  have hM1 : ∀ x ∈ (List.range np).map (fun i =>
      VTKLine.point (xs.getD i 0) (ys.getD i 0) (zs.getD i 0)), isScalarsHdr x = false := by
    intro x hx
    obtain ⟨i, -, rfl⟩ := List.mem_map.mp hx
    rfl
  have hL2 : ∀ x ∈ [VTKLine.blank, VTKLine.verticesHdr np (2 * np)], isScalarsHdr x = false := by
    intro x hx
    simp only [List.mem_cons, List.not_mem_nil, or_false] at hx
    rcases hx with rfl | rfl <;> rfl
  have hM2 : ∀ x ∈ (List.range np).map (fun i => VTKLine.vertex 1 i),
      isScalarsHdr x = false := by
    intro x hx
    obtain ⟨i, -, rfl⟩ := List.mem_map.mp hx
    rfl
  have hL3 : ∀ x ∈ [VTKLine.blank, VTKLine.pointDataHdr np], isScalarsHdr x = false := by
    intro x hx
    simp only [List.mem_cons, List.not_mem_nil, or_false] at hx
    rcases hx with rfl | rfl <;> rfl
  unfold vtkFileLines
  simp only [List.append_assoc]
  rw [scalarBlocks_append_no_hdr _ _ hL1, scalarBlocks_append_no_hdr _ _ hM1,
      scalarBlocks_append_no_hdr _ _ hL2, scalarBlocks_append_no_hdr _ _ hM2,
      scalarBlocks_append_no_hdr _ _ hL3,
      scalarBlocks_write_scalar np h, scalarBlocks_write_scalar np h,
      scalarBlocks_write_scalar np h, scalarBlocks_write_scalar np h,
      scalarBlocks_write_scalar np h,
      show write_scalar np "az" azs = write_scalar np "az" azs ++ [] from
        (List.append_nil _).symm,
      scalarBlocks_write_scalar np h]
  rfl

lemma WriteParticlesVTK_file_eq (pc : MDParticleContainer) (nstep : ℕ)
    (h : countParticles pc ≠ 0) :
    (WriteParticlesVTK pc nstep true).file
      = some (Concatenate "particles_" nstep 5 ++ ".vtk",
          vtkFileLines (countParticles pc) (xs pc) (ys pc) (zs pc)
            (vxs pc) (vys pc) (vzs pc) (axs pc) (ays pc) (azs pc)) := by
  simp [WriteParticlesVTK, h]

lemma pointRows_file (pc : MDParticleContainer) :
    (List.range (countParticles pc)).map
      (fun i => ((xs pc).getD i 0, (ys pc).getD i 0, (zs pc).getD i 0))
      = (allParticles pc).map (fun part => (part.pos 0, part.pos 1, part.pos 2)) := by
  apply List.ext_getElem
  · simp [length_allParticles]
  · intro i h1 h2
    have hi : i < (allParticles pc).length := by
      simpa [length_allParticles] using h2
    simp only [List.getElem_map, List.getElem_range]
    rw [show xs pc = collectReal pc (fun part => part.pos 0) from rfl,
        show ys pc = collectReal pc (fun part => part.pos 1) from rfl,
        show zs pc = collectReal pc (fun part => part.pos 2) from rfl,
        collect_getD pc _ i hi, collect_getD pc _ i hi, collect_getD pc _ i hi]

/-- C1: for every particle population that reaches the write, the point count
declared in the POINTS header of the file written by `WriteParticlesVTK`
equals the sum, over all levels from 0 to the finest level and over all
locally-owned tiles at each level, of that tile's particle count, and equals
the number of position lines written in the POINTS block. -/
theorem vtk_point_count_consistent (pc : MDParticleContainer) (nstep : ℕ)
    (h : countParticles pc ≠ 0) :
    ∃ fname lines, (WriteParticlesVTK pc nstep true).file = some (fname, lines) ∧
      pointsHdrs lines = [countParticles pc] ∧
      (pointRows lines).length = countParticles pc ∧
      countParticles pc = ((List.range (pc.finestLevel + 1)).map (fun lev =>
        ((pc.GetParticles lev).map (fun ptile => ptile.length)).sum)).sum := by
  refine ⟨_, _, WriteParticlesVTK_file_eq pc nstep h, ?_, ?_, rfl⟩
  · exact pointsHdrs_vtkFileLines _ _ _ _ _ _ _ _ _ _
  · rw [pointRows_vtkFileLines]
    simp

theorem vtk_point_count_consistent_witness :
    countParticles pcThree ≠ 0 ∧
    (∃ fname lines, (WriteParticlesVTK pcThree 7 true).file = some (fname, lines) ∧
      pointsHdrs lines = [countParticles pcThree] ∧
      (pointRows lines).length = countParticles pcThree ∧
      countParticles pcThree = ((List.range (pcThree.finestLevel + 1)).map (fun lev =>
        ((pcThree.GetParticles lev).map (fun ptile => ptile.length)).sum)).sum) :=
  ⟨by decide, vtk_point_count_consistent pcThree 7 (by decide)⟩

/-- C2: in the file written by `WriteParticlesVTK`, the position rows are the
particles of the aggregation order, and the six SCALARS blocks are named vx,
vy, vz, ax, ay, az and carry, at every row index, the attribute of the same
particle that owns that row of the POINTS block: all nine sequences are
produced in one and the same (level ascending, tile-iteration, in-tile)
order. -/
theorem vtk_row_alignment (pc : MDParticleContainer) (nstep : ℕ)
    (h : countParticles pc ≠ 0) :
    ∃ fname lines, (WriteParticlesVTK pc nstep true).file = some (fname, lines) ∧
      pointRows lines
        = (allParticles pc).map (fun part => (part.pos 0, part.pos 1, part.pos 2)) ∧
      scalarBlocks lines
        = [("vx", (allParticles pc).map (fun part => part.rdata PIdx.vx)),
           ("vy", (allParticles pc).map (fun part => part.rdata PIdx.vy)),
           ("vz", (allParticles pc).map (fun part => part.rdata PIdx.vz)),
           ("ax", (allParticles pc).map (fun part => part.rdata PIdx.ax)),
           ("ay", (allParticles pc).map (fun part => part.rdata PIdx.ay)),
           ("az", (allParticles pc).map (fun part => part.rdata PIdx.az))] := by
  refine ⟨_, _, WriteParticlesVTK_file_eq pc nstep h, ?_, ?_⟩
  · rw [pointRows_vtkFileLines]
    exact pointRows_file pc
  · rw [scalarBlocks_vtkFileLines _ h,
        show vxs pc = collectReal pc (fun part => part.rdata PIdx.vx) from rfl,
        show vys pc = collectReal pc (fun part => part.rdata PIdx.vy) from rfl,
        show vzs pc = collectReal pc (fun part => part.rdata PIdx.vz) from rfl,
        show axs pc = collectReal pc (fun part => part.rdata PIdx.ax) from rfl,
        show ays pc = collectReal pc (fun part => part.rdata PIdx.ay) from rfl,
        show azs pc = collectReal pc (fun part => part.rdata PIdx.az) from rfl,
        collect_range_getD, collect_range_getD, collect_range_getD,
        collect_range_getD, collect_range_getD, collect_range_getD]

theorem vtk_row_alignment_witness :
    countParticles pcThree ≠ 0 ∧
    (∃ fname lines, (WriteParticlesVTK pcThree 7 true).file = some (fname, lines) ∧
      pointRows lines
        = (allParticles pcThree).map (fun part => (part.pos 0, part.pos 1, part.pos 2)) ∧
      scalarBlocks lines
        = [("vx", (allParticles pcThree).map (fun part => part.rdata PIdx.vx)),
           ("vy", (allParticles pcThree).map (fun part => part.rdata PIdx.vy)),
           ("vz", (allParticles pcThree).map (fun part => part.rdata PIdx.vz)),
           ("ax", (allParticles pcThree).map (fun part => part.rdata PIdx.ax)),
           ("ay", (allParticles pcThree).map (fun part => part.rdata PIdx.ay)),
           ("az", (allParticles pcThree).map (fun part => part.rdata PIdx.az))]) :=
  ⟨by decide, vtk_row_alignment pcThree 7 (by decide)⟩

/-- C3: with a total particle count of zero, `WriteParticlesVTK` emits the
diagnostic notice, produces no file, and returns normally, whatever the
environment would have answered for the file open. -/
theorem vtk_zero_particles_skip (pc : MDParticleContainer) (nstep : ℕ) (openOk : Bool)
    (h : countParticles pc = 0) :
    (WriteParticlesVTK pc nstep openOk).file = none ∧
    (WriteParticlesVTK pc nstep openOk).log
      = ["WriteParticlesVTK: no particles to write.\n"] := by
  constructor <;> simp [WriteParticlesVTK, h]

theorem vtk_zero_particles_skip_witness :
    countParticles pcEmpty = 0 ∧
    ((WriteParticlesVTK pcEmpty 3 true).file = none ∧
     (WriteParticlesVTK pcEmpty 3 true).log
       = ["WriteParticlesVTK: no particles to write.\n"]) :=
  ⟨by decide, vtk_zero_particles_skip pcEmpty 3 true (by decide)⟩

/-- C4: with an empty geometry sequence `WritePlotFile` is a no-op that
produces nothing, and this is the single early-exit condition: every
non-empty geometry sequence produces an output. -/
theorem plotfile_empty_geom_noop (pc : MDParticleContainer) (nstep : ℕ) :
    WritePlotFile pc [] nstep = none ∧
    ∀ geom : List Geometry, geom ≠ [] →
      ∃ out, WritePlotFile pc geom nstep = some out := by
  constructor
  · rfl
  · intro geom hg
    have hlen : geom.length ≠ 0 := by simpa [List.length_eq_zero] using hg
    simp only [WritePlotFile]
    rw [if_neg hlen]
    exact ⟨_, rfl⟩

theorem plotfile_empty_geom_noop_witness :
    WritePlotFile pcOne [] 7 = none ∧
    ∃ out, WritePlotFile pcOne [geomEx] 7 = some out :=
  ⟨(plotfile_empty_geom_noop pcOne 7).1,
   (plotfile_empty_geom_noop pcOne 7).2 [geomEx] (by decide)⟩

/-- C5: for a non-empty geometry sequence of n levels, `WritePlotFile` hands
the structured-grid writer exactly n field arrays and a refinement-ratio
sequence of length n - 1 whose every entry is 2 along every axis; for a
single level the ratio sequence is empty. -/
theorem plotfile_shapes (pc : MDParticleContainer) (geom : List Geometry) (nstep : ℕ)
    (h : geom ≠ []) :
    ∃ pa ca, WritePlotFile pc geom nstep = some (pa, ca) ∧
      pa.output_cc.length = geom.length ∧
      pa.refRatio.length = geom.length - 1 ∧
      (∀ rr ∈ pa.refRatio, rr = (2, 2, 2)) ∧
      (geom.length = 1 → pa.refRatio = []) := by
  have hlen : geom.length ≠ 0 := by simpa [List.length_eq_zero] using h
  refine ⟨{ pltfile := Concatenate "plt" nstep 5, num_levels := geom.length,
            output_cc := geom.map (fun g =>
              { boxArray := [g.Domain], dmSource := [g.Domain],
                ncomp := 1, ngrow := 0, fillValue := 0 }),
            varnames := ["dummy"], geoms := geom, time := 0,
            level_steps := List.replicate geom.length nstep,
            refRatio := List.replicate (geom.length - 1) (2, 2, 2) },
          { dir := Concatenate "plt" nstep 5, subdir := "particle0", writeHeader := true,
            particle_varnames := ["vx", "vy", "vz", "ax", "ay", "az"] },
          ?_, ?_, ?_, ?_, ?_⟩
  · simp only [WritePlotFile]
    rw [if_neg hlen]
    rfl
  · simp
  · simp
  · intro rr hrr
    exact List.eq_of_mem_replicate hrr
  · intro h1
    simp [h1]

theorem plotfile_shapes_witness :
    ∃ pa ca, WritePlotFile pcOne [geomEx, geomEx2] 7 = some (pa, ca) ∧
      pa.output_cc.length = [geomEx, geomEx2].length ∧
      pa.refRatio.length = [geomEx, geomEx2].length - 1 ∧
      (∀ rr ∈ pa.refRatio, rr = (2, 2, 2)) ∧
      ([geomEx, geomEx2].length = 1 → pa.refRatio = []) :=
  plotfile_shapes pcOne [geomEx, geomEx2] 7 (by decide)

/-- C6: when the output file cannot be opened, `WriteParticlesVTK` emits the
diagnostic notice naming the file and aborts the export with no file content
produced. -/
theorem vtk_open_failure_aborts (pc : MDParticleContainer) (nstep : ℕ)
    (h : countParticles pc ≠ 0) :
    (WriteParticlesVTK pc nstep false).file = none ∧
    (WriteParticlesVTK pc nstep false).log
      = ["WriteParticlesVTK: could not open file "
          ++ (Concatenate "particles_" nstep 5 ++ ".vtk") ++ "\n"] := by
  constructor <;> simp [WriteParticlesVTK, h]

theorem vtk_open_failure_aborts_witness :
    countParticles pcOne ≠ 0 ∧
    ((WriteParticlesVTK pcOne 7 false).file = none ∧
     (WriteParticlesVTK pcOne 7 false).log
       = ["WriteParticlesVTK: could not open file "
           ++ (Concatenate "particles_" 7 5 ++ ".vtk") ++ "\n"]) :=
  ⟨by decide, vtk_open_failure_aborts pcOne 7 (by decide)⟩

/-- C7 as stated is false on the code: the format header that identifies the
version, the dataset title, the ASCII encoding and the dataset type occupies
four lines, not three. At the one-particle input the first three lines of the
file carry only version, title and encoding, and the dataset-type
declaration is the fourth line. -/
theorem vtk_header_three_line_cex :
    ((WriteParticlesVTK pcOne 7 true).file.map (fun f => (f.2.take 3, f.2[3]?)))
      = some ([VTKLine.text "# vtk DataFile Version 3.0",
               VTKLine.text "MD particles",
               VTKLine.text "ASCII"],
              some (VTKLine.text "DATASET POLYDATA")) := by
  rfl

/-- C7 (amended): for every step index the point-cloud file is named
`particles_` followed by the step index zero-padded to 5 decimal digits
followed by `.vtk`, and begins with a FOUR-line format header identifying
version "3.0", a dataset title, ASCII encoding, and dataset type
"polygon data". -/
theorem vtk_filename_and_header (pc : MDParticleContainer) (nstep : ℕ)
    (h : countParticles pc ≠ 0) :
    ∃ lines, (WriteParticlesVTK pc nstep true).file
        = some ("particles_" ++ zeroPad5 nstep ++ ".vtk", lines) ∧
      lines.take 4 = [VTKLine.text "# vtk DataFile Version 3.0",
                      VTKLine.text "MD particles",
                      VTKLine.text "ASCII",
                      VTKLine.text "DATASET POLYDATA"] := by
  refine ⟨vtkFileLines (countParticles pc) (xs pc) (ys pc) (zs pc)
      (vxs pc) (vys pc) (vzs pc) (axs pc) (ays pc) (azs pc), ?_, rfl⟩
  rw [WriteParticlesVTK_file_eq pc nstep h,
      show Concatenate "particles_" nstep 5 ++ ".vtk"
          = "particles_" ++ zeroPad5 nstep ++ ".vtk" by
        simp [Concatenate, zeroPad5, String.append_assoc]]

theorem vtk_filename_and_header_witness :
    countParticles pcOne ≠ 0 ∧
    (∃ lines, (WriteParticlesVTK pcOne 7 true).file
        = some ("particles_" ++ zeroPad5 7 ++ ".vtk", lines) ∧
      lines.take 4 = [VTKLine.text "# vtk DataFile Version 3.0",
                      VTKLine.text "MD particles",
                      VTKLine.text "ASCII",
                      VTKLine.text "DATASET POLYDATA"]) :=
  ⟨by decide, vtk_filename_and_header pcOne 7 (by decide)⟩

/-- C8: the topology block of the file written by `WriteParticlesVTK`
declares total cell count n and total index-list size 2n for total particle
count n, followed by exactly the n rows "1 i" for i = 0 .. n-1, the i-th
row's index being the particle's zero-based position in the aggregated
sequence. -/
theorem vtk_topology_block (pc : MDParticleContainer) (nstep : ℕ)
    (h : countParticles pc ≠ 0) :
    ∃ fname lines, (WriteParticlesVTK pc nstep true).file = some (fname, lines) ∧
      verticesHdrs lines = [(countParticles pc, 2 * countParticles pc)] ∧
      vertexRows lines = (List.range (countParticles pc)).map (fun i => (1, i)) := by
  refine ⟨_, _, WriteParticlesVTK_file_eq pc nstep h, ?_, ?_⟩
  · exact verticesHdrs_vtkFileLines _ _ _ _ _ _ _ _ _ _
  · exact vertexRows_vtkFileLines _ _ _ _ _ _ _ _ _ _

theorem vtk_topology_block_witness :
    countParticles pcThree ≠ 0 ∧
    (∃ fname lines, (WriteParticlesVTK pcThree 7 true).file = some (fname, lines) ∧
      verticesHdrs lines = [(countParticles pcThree, 2 * countParticles pcThree)] ∧
      vertexRows lines = (List.range (countParticles pcThree)).map (fun i => (1, i))) :=
  ⟨by decide, vtk_topology_block pcThree 7 (by decide)⟩

/-- C9: after the collection pass each of the nine host-side vectors holds
exactly as many elements as the first counting pass reported over the
identical level/tile structure, so every access `data[i]` with
`i < np_total` done by the write loops is within bounds. -/
theorem vtk_collection_lengths (pc : MDParticleContainer) :
    (xs pc).length = countParticles pc ∧ (ys pc).length = countParticles pc ∧
    (zs pc).length = countParticles pc ∧ (vxs pc).length = countParticles pc ∧
    (vys pc).length = countParticles pc ∧ (vzs pc).length = countParticles pc ∧
    (axs pc).length = countParticles pc ∧ (ays pc).length = countParticles pc ∧
    (azs pc).length = countParticles pc :=
  ⟨length_collectReal pc _, length_collectReal pc _, length_collectReal pc _,
   length_collectReal pc _, length_collectReal pc _, length_collectReal pc _,
   length_collectReal pc _, length_collectReal pc _, length_collectReal pc _⟩

/-- C10: for every level of a non-empty geometry sequence, the field array
`WritePlotFile` constructs is laid out over a box array holding exactly one
box, the level's whole index-space domain, and its distribution mapping is
computed from that one-box array alone. -/
theorem plotfile_single_box_levels (pc : MDParticleContainer) (geom : List Geometry)
    (nstep : ℕ) (h : geom ≠ []) :
    ∃ pa ca, WritePlotFile pc geom nstep = some (pa, ca) ∧
      ∀ lev : ℕ, pa.output_cc[lev]?
        = geom[lev]?.map (fun g =>
            ({ boxArray := [g.Domain], dmSource := [g.Domain],
               ncomp := 1, ngrow := 0, fillValue := 0 } : LevelData)) := by
  have hlen : geom.length ≠ 0 := by simpa [List.length_eq_zero] using h
  refine ⟨{ pltfile := Concatenate "plt" nstep 5, num_levels := geom.length,
            output_cc := geom.map (fun g =>
              { boxArray := [g.Domain], dmSource := [g.Domain],
                ncomp := 1, ngrow := 0, fillValue := 0 }),
            varnames := ["dummy"], geoms := geom, time := 0,
            level_steps := List.replicate geom.length nstep,
            refRatio := List.replicate (geom.length - 1) (2, 2, 2) },
          { dir := Concatenate "plt" nstep 5, subdir := "particle0", writeHeader := true,
            particle_varnames := ["vx", "vy", "vz", "ax", "ay", "az"] },
          ?_, ?_⟩
  · simp only [WritePlotFile]
    rw [if_neg hlen]
    rfl
  · intro lev
    simp [List.getElem?_map]

theorem plotfile_single_box_levels_witness :
    ∃ pa ca, WritePlotFile pcOne [geomEx, geomEx2] 7 = some (pa, ca) ∧
      ∀ lev : ℕ, pa.output_cc[lev]?
        = [geomEx, geomEx2][lev]?.map (fun g =>
            ({ boxArray := [g.Domain], dmSource := [g.Domain],
               ncomp := 1, ngrow := 0, fillValue := 0 } : LevelData)) :=
  plotfile_single_box_levels pcOne [geomEx, geomEx2] 7 (by decide)
